import Mathlib

/-
  Verification of the CodebaseCity scene-generation and classification engine.

  Shallow embedding conventions:
  * JS numbers are modelled as exact rationals (ℚ); the metric fields of the
    data model are non-negative integers and are modelled as ℕ.
  * JS `x || y` on numeric values treats `0` and `undefined` as falsy; the
    helpers `jsOr` / `jsOrOpt` / `jsOrStr` reproduce that semantics, with
    `undefined` modelled as `none`.
  * Fallible lookups return `Option`; a JS `Set` is modelled by a list whose
    membership relation is what the program observes via `Set.has`.
-/

namespace CodebaseCity

/-- JS `a || b` for non-negative integer values: `0` is falsy. -/
def jsOr (a b : ℕ) : ℕ := if a = 0 then b else a

/-- JS `o || b` where `o` may be `undefined` (modelled as `none`); `0` is falsy. -/
def jsOrOpt (o : Option ℕ) (b : ℕ) : ℕ :=
  match o with
  | none => b
  | some n => jsOr n b

/-- JS `a || b` on possibly-undefined strings: `undefined` and `""` are falsy. -/
def jsOrStr (a b : Option String) : Option String :=
  match a with
  | none => b
  | some s => if s = "" then b else some s

/-- Per-file metrics of the data model (§3).  All six documented fields are
non-negative integers.  The source of `detectPattern` additionally reads a
`metrics.methods` key that the data model does not define; it is modelled as
an `Option` that is `none` on every data-model input. -/
structure Metrics where
  loc : ℕ
  complexity : ℕ
  churn : ℕ
  age_days : ℕ
  dependencies_in : ℕ
  dependencies_out : ℕ
  methods : Option ℕ
deriving DecidableEq

/-- World position of a building; `y` is derived from height (§3). -/
structure Pos where
  x : ℚ
  z : ℚ
deriving DecidableEq

structure Dims where
  width : ℚ
  height : ℚ
  depth : ℚ
deriving DecidableEq

/-- A building, one per source file (data model §3). -/
structure Building where
  id : String
  language : String
  position : Pos
  dimensions : Dims
  metrics : Metrics
  is_hotspot : Bool
  decay_level : ℚ
deriving DecidableEq

/-- `getBuildingTier` from `frontend/src/components/Building.jsx`. -/
def getBuildingTier (b : Building) : ℕ :=
  let loc := jsOr b.metrics.loc 0
  let complexity := jsOr b.metrics.complexity 0
  if loc > 500 ∨ complexity > 20 ∨ b.is_hotspot then 4
  else if loc > 200 ∨ complexity > 12 then 3
  else if loc > 80 ∨ complexity > 6 then 2
  else 1

/-- The five design-smell categories of `detectPattern`
(`frontend/src/components/BuildingLabel.jsx`).  The display payload
(label, color, severity) carried alongside the tag in the source is
consumed only by the UI and is not modelled. -/
inductive Pattern where
  | god_class
  | data_class
  | lazy_class
  | brain_class
  | blob
deriving DecidableEq

/-- `detectPattern` from `frontend/src/components/BuildingLabel.jsx`.
The source computes
`methods = metrics.methods || metrics.complexity || 0` and
`attributes = metrics.dependencies_in || 0`. -/
def detectPattern (b : Building) : Option Pattern :=
  let loc := jsOr b.metrics.loc 0
  let complexity := jsOr b.metrics.complexity 0
  let methods := jsOrOpt b.metrics.methods (jsOr b.metrics.complexity 0)
  let attributes := jsOr b.metrics.dependencies_in 0
  if (loc > 400 ∧ complexity > 20) ∨ b.is_hotspot then some .god_class
  else if attributes > 10 ∧ methods < 3 then some .data_class
  else if loc < 50 ∧ methods < 3 ∧ ¬b.is_hotspot then some .lazy_class
  else if complexity > 25 then some .brain_class
  else if loc > 800 then some .blob
  else none

/-- `calculateHealthScore` from `frontend/src/components/BuildingPanel.jsx`. -/
def calculateHealthScore (m : Metrics) (decay : ℚ) (isHotspot : Bool) : ℤ :=
  let score : ℤ := 100
  let score := if m.complexity > 25 then score - 30
    else if m.complexity > 15 then score - 20
    else if m.complexity > 10 then score - 10
    else score
  let score := if m.churn > 15 then score - 20
    else if m.churn > 8 then score - 10
    else score
  let score := if decay > (0.8 : ℚ) then score - 15
    else if decay > (0.5 : ℚ) then score - 8
    else score
  let score := if m.dependencies_in > 20 then score - 15
    else if m.dependencies_in > 10 then score - 8
    else score
  let score := if isHotspot then score - 20 else score
  max 0 score

/-- A building with `loc = 900` and `complexity = 30`, used by the C4 example. -/
def exGod : Building :=
  ⟨"exGod", "python", ⟨0, 0⟩, ⟨1, 1, 1⟩, ⟨900, 30, 0, 0, 0, 0, none⟩, false, 0⟩

/-- A hotspot building used by the C5 witness. -/
def exHot : Building :=
  ⟨"exHot", "python", ⟨0, 0⟩, ⟨1, 1, 1⟩, ⟨10, 1, 0, 0, 0, 0, none⟩, true, 0⟩

/-- The metrics of the C6 example building
(`complexity = 30`, `churn = 20`, `dependencies_in = 25`). -/
def exSickMetrics : Metrics := ⟨1000, 30, 20, 0, 25, 0, none⟩

/-- A dependency edge (§3).  `CityScene.jsx` reads each endpoint as
`road.source || road.from` and `road.target || road.to`; the alternate
keys are modelled as the optional fields `fromKey` / `toKey`
(`from` and `to` in the JS object). -/
structure Road where
  source : Option String
  target : Option String
  fromKey : Option String
  toKey : Option String
deriving DecidableEq

/-- `road.source || road.from` in `CityScene.jsx`. -/
def roadSource (r : Road) : Option String := jsOrStr r.source r.fromKey

/-- `road.target || road.to` in `CityScene.jsx`. -/
def roadTarget (r : Road) : Option String := jsOrStr r.target r.toKey

/-- The filter test of the `roadsToRender` memo when a building is selected:
`source === selectedBuilding.id || target === selectedBuilding.id`. -/
def incidentB (selId : String) (r : Road) : Bool :=
  (roadSource r == some selId) || (roadTarget r == some selId)

/-- The `roadsToRender` memo of `CityScene.jsx`: with a selection, the roads
incident to the selected id; otherwise the first 40 roads when `showRoads`
is on, else none. -/
def roadsToRender (roads : List Road) (selected : Option Building)
    (showRoads : Bool) : List Road :=
  match selected with
  | some s => roads.filter (fun r => incidentB s.id r)
  | none => if showRoads then roads.take 40 else []

/-- The `connectedIds` memo of `CityScene.jsx`: for each road, if one
endpoint equals the selected id the other endpoint is added.  The JS `Set`
is modelled by the list of added elements; the program only observes it
through `Set.has`, i.e. membership. -/
def connectedIds (roads : List Road) (selected : Option Building) :
    List (Option String) :=
  match selected with
  | none => []
  | some s =>
    roads.foldl (fun ids r =>
      let src := roadSource r
      let tgt := roadTarget r
      let ids1 := if src = some s.id then ids ++ [tgt] else ids
      if tgt = some s.id then ids1 ++ [src] else ids1) []

/-- Whether an endpoint id resolves in `buildingMap` (built from the
building list keyed by id); an `undefined` endpoint resolves to nothing. -/
def resolvesId (bs : List Building) (oid : Option String) : Bool :=
  match oid with
  | some i => bs.any (fun b => b.id == i)
  | none => false

/-- The roads actually drawn by `CityScene.jsx`: the `roadsToRender` list,
minus every road for which `buildingMap` resolves no `fromBuilding` or no
`toBuilding` (`if (!fromBuilding || !toBuilding) return null`). -/
def renderedRoads (bs : List Building) (roads : List Road)
    (selected : Option Building) (showRoads : Bool) : List Road :=
  (roadsToRender roads selected showRoads).filter
    (fun r => resolvesId bs (roadSource r) && resolvesId bs (roadTarget r))

/-- A building with id `A`, used by the C7 scenario. -/
def bldA : Building :=
  ⟨"A", "python", ⟨0, 0⟩, ⟨1, 1, 1⟩, ⟨10, 1, 0, 0, 0, 0, none⟩, false, 0⟩

/-- A road from building `A` to an id `ghost` that no building carries. -/
def ghostRoad : Road := ⟨some "A", some "ghost", none, none⟩

/-- The three LOD states of §4.4. -/
inductive LODState where
  | high
  | medium
  | low
deriving DecidableEq

/-- Modelled from the spec: the LOD Controller appears in no source file of
the repository snapshot, only in the specification (§4.4), which defines a
three-state machine over high/medium/low recomputed each frame from the
camera distance `d`, active only when the entity count exceeds 100 (below
that the state is pinned to `high`): `d > 250` gives low,
`150 < d ≤ 250` gives medium, `d ≤ 150` gives high. -/
def lodState (entityCount : ℕ) (d : ℚ) : LODState :=
  if entityCount ≤ 100 then .high
  else if d > 250 then .low
  else if d > 150 then .medium
  else .high

/-- Modelled from the spec: the initial LOD state is `high` (§4.4). -/
def lodInitial : LODState := .high

/-- Minimum of a list of rationals.  The source folds `Math.min` starting
from `Infinity`; on the nonempty lists reaching that code (the empty case
returns early) this equals folding from the first element. -/
def listMinQ : List ℚ → ℚ
  | [] => 0
  | x :: xs => xs.foldl min x

/-- Maximum of a list of rationals, as folded from `-Infinity` in the
source; equal to folding from the first element on nonempty lists. -/
def listMaxQ : List ℚ → ℚ
  | [] => 0
  | x :: xs => xs.foldl max x

/-- `centerX = (minX + maxX) / 2` of the `CityScene.jsx` memo: the
x-midpoint of the bounding box of the building positions. -/
def bboxCenterX (bs : List Building) : ℚ :=
  (listMinQ (bs.map (fun b => b.position.x)) +
    listMaxQ (bs.map (fun b => b.position.x))) / 2

/-- `centerZ = (minZ + maxZ) / 2` of the `CityScene.jsx` memo. -/
def bboxCenterZ (bs : List Building) : ℚ :=
  (listMinQ (bs.map (fun b => b.position.z)) +
    listMaxQ (bs.map (fun b => b.position.z))) / 2

/-- One building of the `centeredBuildings` map:
`{...b, position: {x: b.position.x - centerX, z: b.position.z - centerZ}}`. -/
def centerBuilding (cX cZ : ℚ) (b : Building) : Building :=
  ⟨b.id, b.language, ⟨b.position.x - cX, b.position.z - cZ⟩,
    b.dimensions, b.metrics, b.is_hotspot, b.decay_level⟩

/-- The `centeredBuildings` memo of `CityScene.jsx` (empty input early-returns
an empty scene). -/
def centeredBuildings (bs : List Building) : List Building :=
  if bs.isEmpty then []
  else bs.map (centerBuilding (bboxCenterX bs) (bboxCenterZ bs))

/-- A district, keeping the fields the normalizer touches (§3). -/
structure District where
  id : String
  center : Option (ℚ × ℚ)
deriving DecidableEq

/-- One district of the `centeredDistricts` map:
`center: d.center ? {x: d.center.x - centerX, y: d.center.y - centerZ} : {x: 0, y: 0}`. -/
def centerDistrict (cX cZ : ℚ) (d : District) : District :=
  ⟨d.id, match d.center with
    | some c => some (c.1 - cX, c.2 - cZ)
    | none => some (0, 0)⟩

/-- The `centeredDistricts` memo of `CityScene.jsx`. -/
def centeredDistricts (bs : List Building) (ds : List District) : List District :=
  if bs.isEmpty then []
  else ds.map (centerDistrict (bboxCenterX bs) (bboxCenterZ bs))

/-- Three buildings at x-coordinates 0, 0 and 10: the bounding-box midpoint
is 5, but the centroid is 10/3. -/
def cbA : Building :=
  ⟨"a", "python", ⟨0, 0⟩, ⟨1, 1, 1⟩, ⟨0, 0, 0, 0, 0, 0, none⟩, false, 0⟩

def cbB : Building :=
  ⟨"b", "python", ⟨0, 0⟩, ⟨1, 1, 1⟩, ⟨0, 0, 0, 0, 0, 0, none⟩, false, 0⟩

def cbC : Building :=
  ⟨"c", "python", ⟨10, 0⟩, ⟨1, 1, 1⟩, ⟨0, 0, 0, 0, 0, 0, none⟩, false, 0⟩

def skewedCity : List Building := [cbA, cbB, cbC]

/-- An RGB color with channels in `[0, 1]`, as held by a `THREE.Color`. -/
structure Color3 where
  r : ℚ
  g : ℚ
  b : ℚ
deriving DecidableEq

/-- `colorToRGB` of the instanced-buildings source: each hex byte pair is
divided by 255.  Hex colors are transcribed as their three byte values. -/
def colorToRGB (c : ℕ × ℕ × ℕ) : Color3 :=
  ⟨(c.1 : ℚ) / 255, (c.2.1 : ℚ) / 255, (c.2.2 : ℚ) / 255⟩

/-- `data.language?.toLowerCase() || 'default'`: data-model languages are
lowercase tags, so `toLowerCase` is the identity; an empty language string
is falsy and falls back to the `default` key. -/
def langKey (lang : String) : String := if lang = "" then "default" else lang

/-- The `LANGUAGE_COLORS` table of the instanced/single-building source file
(VSCode-style colors), combined with its
`LANGUAGE_COLORS[lang] || LANGUAGE_COLORS.default` lookup; hex values are
transcribed to byte triples. -/
def vscodeLanguageColor : String → ℕ × ℕ × ℕ
  | "python" => (53, 114, 165)
  | "javascript" => (247, 223, 30)
  | "typescript" => (49, 120, 198)
  | "java" => (176, 114, 25)
  | "go" => (0, 173, 216)
  | "rust" => (222, 165, 132)
  | "cpp" => (243, 75, 125)
  | "c" => (85, 85, 85)
  | "ruby" => (204, 52, 45)
  | "php" => (119, 123, 180)
  | "swift" => (250, 115, 67)
  | "kotlin" => (169, 123, 255)
  | "scala" => (194, 45, 64)
  | "csharp" => (23, 134, 0)
  | "html" => (227, 76, 38)
  | "css" => (86, 61, 124)
  | "json" => (41, 41, 41)
  | "yaml" => (203, 23, 30)
  | "markdown" => (8, 63, 161)
  | "shell" => (137, 224, 81)
  | _ => (107, 114, 128)

/-- The `LANGUAGE_COLORS` table of `Building.jsx` (muted city tones) with
its default lookup; hex values transcribed to byte triples. -/
def cityLanguageColor : String → ℕ × ℕ × ℕ
  | "python" => (74, 124, 155)
  | "javascript" => (196, 163, 90)
  | "typescript" => (92, 124, 186)
  | "java" => (139, 105, 20)
  | "go" => (90, 159, 168)
  | "rust" => (168, 104, 73)
  | "cpp" => (90, 90, 122)
  | "c" => (106, 106, 106)
  | "ruby" => (139, 58, 58)
  | "php" => (106, 90, 138)
  | _ => (106, 106, 106)

/-- The moss tone of the decay blend, hex `5a6b5a`. -/
def mossColor : Color3 := colorToRGB (90, 107, 90)

/-- `THREE.Color.lerp`: each channel moves toward the target by `alpha`
times the difference. -/
def lerpColor (c t : Color3) (alpha : ℚ) : Color3 :=
  ⟨c.r + (t.r - c.r) * alpha,
    c.g + (t.g - c.g) * alpha,
    c.b + (t.b - c.b) * alpha⟩

/-- The `buildingMaterial` base color of the single-building source:
when `decay_level > 0.5` the base color is lerped toward the moss tone
with factor `decay_level * 0.3`, otherwise it is left unchanged. -/
def buildingMaterialColor (base : Color3) (decay : ℚ) : Color3 :=
  if decay > (0.5 : ℚ) then lerpColor base mossColor (decay * (0.3 : ℚ)) else base

/-- The VSCode-style python blue, the base color of a python building on
the instanced path. -/
def pythonBase : Color3 := colorToRGB (vscodeLanguageColor "python")

inductive RenderMode where
  | discrete
  | instanced
deriving DecidableEq

/-- Modelled from the spec: the render-mode switch is in no source file of
the repository snapshot — `CityScene.jsx` always maps buildings to discrete
`Building` components and `InstancedBuildings` has no caller — so the
switch is taken from §4.3: past the fixed threshold of 200 entities the
engine must use the batched/instanced path. -/
def renderMode (entityCount : ℕ) : RenderMode :=
  if 200 < entityCount then .instanced else .discrete

/-- Per-instance data of one building in `InstancedBuildings`:
`dummy.position.set(x, height / 2, z)`,
`dummy.scale.set(width, height, depth)`, and a per-instance color from the
VSCode language table.  All instances belong to the single
`instancedMesh` draw. -/
structure BuildingInstance where
  posX : ℚ
  posY : ℚ
  posZ : ℚ
  scaleX : ℚ
  scaleY : ℚ
  scaleZ : ℚ
  color : Color3
deriving DecidableEq

/-- The per-instance attribute list built by `InstancedBuildings` over the
building list. -/
def instancedBuildings (bs : List Building) : List BuildingInstance :=
  bs.map (fun b =>
    ⟨b.position.x, b.dimensions.height / 2, b.position.z,
      b.dimensions.width, b.dimensions.height, b.dimensions.depth,
      colorToRGB (vscodeLanguageColor (langKey b.language))⟩)

/-- `baseColor` of the discrete tiered path (`Building.jsx`): the muted
language table with default fallback. -/
def discreteBaseColor (b : Building) : Color3 :=
  colorToRGB (cityLanguageColor (langKey b.language))

/-- One entity of the discrete render path: `CityScene.jsx` places a
`Building` component at `[x, 0, z]` for every centered building, with the
base color from the muted table. -/
structure DiscreteEntity where
  id : String
  posX : ℚ
  posZ : ℚ
  color : Color3
deriving DecidableEq

/-- The entity list of the discrete render path. -/
def discreteBuildings (bs : List Building) : List DiscreteEntity :=
  bs.map (fun b => ⟨b.id, b.position.x, b.position.z, discreteBaseColor b⟩)

/-- A python building with a distinct id per index. -/
def pyBuilding (i : ℕ) : Building :=
  ⟨"py" ++ toString i, "python", ⟨0, 0⟩, ⟨1, 1, 1⟩,
    ⟨100, 5, 0, 0, 0, 0, none⟩, false, 0⟩

/-- A snapshot of 201 distinct buildings, above the instancing threshold. -/
def bigSnapshot : List Building := (List.range 201).map pyBuilding

/-- A projected building dot of the minimap overlay (the display-only
`size` and `color` fields are not modelled). -/
structure MapDot where
  x : ℚ
  y : ℚ
  building : Building
deriving DecidableEq

/-- `minX - padding` of the `mapConfig` memo of `MiniMapOverlay`
(padding 30). -/
def mapMinX (bs : List Building) : ℚ :=
  listMinQ (bs.map (fun b => b.position.x)) - 30

/-- `minZ - padding` of the `mapConfig` memo. -/
def mapMinZ (bs : List Building) : ℚ :=
  listMinQ (bs.map (fun b => b.position.z)) - 30

/-- `width = (maxX - minX) + padding * 2` of the `mapConfig` memo. -/
def mapWidth (bs : List Building) : ℚ :=
  (listMaxQ (bs.map (fun b => b.position.x)) -
    listMinQ (bs.map (fun b => b.position.x))) + 60

/-- `height = (maxZ - minZ) + padding * 2` of the `mapConfig` memo. -/
def mapHeight (bs : List Building) : ℚ :=
  (listMaxQ (bs.map (fun b => b.position.z)) -
    listMinQ (bs.map (fun b => b.position.z))) + 60

/-- `scale = 150 / Math.max(width, height)` of the `mapConfig` memo. -/
def mapScale (bs : List Building) : ℚ := 150 / max (mapWidth bs) (mapHeight bs)

/-- The projected dots of the minimap:
`x = (b.position.x - minX) * scale`, `y = (b.position.z - minZ) * scale`. -/
def buildingDots (bs : List Building) : List MapDot :=
  bs.map (fun b =>
    ⟨(b.position.x - mapMinX bs) * mapScale bs,
      (b.position.z - mapMinZ bs) * mapScale bs, b⟩)

/-- Squared distance from a projected dot to the click point.  The source
compares `Math.sqrt(d2) < 10` and against the running minimum; the square
root is strictly monotone on non-negative reals, so the loop is carried in
squared form: `d2 < 100` and `d2 < m`. -/
def dist2 (dot : MapDot) (cx cy : ℚ) : ℚ := (dot.x - cx) ^ 2 + (dot.y - cy) ^ 2

/-- One iteration of the `handleClick` loop of `MiniMapOverlay`: the
accumulator is the closest dot so far with its squared distance
(`minDist` starts at `Infinity`, modelled by `none`); a dot replaces it
when it is strictly closer and within the hit radius. -/
def handleClickFold (cx cy : ℚ) (acc : Option (MapDot × ℚ)) (dot : MapDot) :
    Option (MapDot × ℚ) :=
  let d2 := dist2 dot cx cy
  match acc with
  | none => if d2 < 100 then some (dot, d2) else none
  | some (best, m) => if d2 < m ∧ d2 < 100 then some (dot, d2) else some (best, m)

/-- `handleClick` of `MiniMapOverlay`: the building of the closest dot
within the hit radius, when one exists. -/
def handleClick (dots : List MapDot) (cx cy : ℚ) : Option Building :=
  (dots.foldl (handleClickFold cx cy) none).map (fun p => p.1.building)

/-- The projected dot of `bldA` alone on the minimap: the scale is
`150 / 60 = 5/2`, placing the dot at `(75, 75)`. -/
def dotA : MapDot := ⟨75, 75, bldA⟩

theorem jsOr_zero (n : ℕ) : jsOr n 0 = n := by
  unfold jsOr; split <;> omega

theorem sub_if3 (s a b c : ℤ) (A B C : Prop) [Decidable A] [Decidable B] [Decidable C] :
    (if A then s - a else if B then s - b else if C then s - c else s) =
      s - (if A then a else if B then b else if C then c else 0) := by
  split_ifs <;> ring

theorem sub_if2 (s a b : ℤ) (A B : Prop) [Decidable A] [Decidable B] :
    (if A then s - a else if B then s - b else s) =
      s - (if A then a else if B then b else 0) := by
  split_ifs <;> ring

theorem sub_if1 (s a : ℤ) (A : Prop) [Decidable A] :
    (if A then s - a else s) = s - (if A then a else 0) := by
  split_ifs <;> ring

/-- The health score equals 100 minus one order-independent deduction per
rule, clamped below at 0. -/
theorem calculateHealthScore_eq (m : Metrics) (decay : ℚ) (hot : Bool) :
    calculateHealthScore m decay hot =
      max 0 (100
        - (if m.complexity > 25 then 30 else if m.complexity > 15 then 20
            else if m.complexity > 10 then 10 else 0)
        - (if m.churn > 15 then 20 else if m.churn > 8 then 10 else 0)
        - (if decay > (0.8 : ℚ) then 15 else if decay > (0.5 : ℚ) then 8 else 0)
        - (if m.dependencies_in > 20 then 15
            else if m.dependencies_in > 10 then 8 else 0)
        - (if hot then 20 else 0)) := by
  dsimp only [calculateHealthScore]
  rw [sub_if3, sub_if2, sub_if2, sub_if2, sub_if1]

/-- C5: for every building, `tier(b) ∈ {1,2,3,4}`: tier 4 exactly when
`loc > 500` or `complexity > 20` or `is_hotspot`; otherwise tier 3 when
`loc > 200` or `complexity > 12`; otherwise tier 2 when `loc > 80` or
`complexity > 6`; otherwise tier 1; in particular `is_hotspot` forces
tier 4. -/
theorem getBuildingTier_spec (b : Building) :
    (getBuildingTier b = 4 ↔
      (b.metrics.loc > 500 ∨ b.metrics.complexity > 20 ∨ b.is_hotspot = true)) ∧
    (getBuildingTier b = 3 ↔
      (¬(b.metrics.loc > 500 ∨ b.metrics.complexity > 20 ∨ b.is_hotspot = true) ∧
        (b.metrics.loc > 200 ∨ b.metrics.complexity > 12))) ∧
    (getBuildingTier b = 2 ↔
      (¬(b.metrics.loc > 500 ∨ b.metrics.complexity > 20 ∨ b.is_hotspot = true) ∧
        ¬(b.metrics.loc > 200 ∨ b.metrics.complexity > 12) ∧
        (b.metrics.loc > 80 ∨ b.metrics.complexity > 6))) ∧
    (getBuildingTier b = 1 ↔
      (¬(b.metrics.loc > 500 ∨ b.metrics.complexity > 20 ∨ b.is_hotspot = true) ∧
        ¬(b.metrics.loc > 200 ∨ b.metrics.complexity > 12) ∧
        ¬(b.metrics.loc > 80 ∨ b.metrics.complexity > 6))) ∧
    (b.is_hotspot = true → getBuildingTier b = 4) ∧
    (getBuildingTier b = 1 ∨ getBuildingTier b = 2 ∨
      getBuildingTier b = 3 ∨ getBuildingTier b = 4) := by
  simp only [getBuildingTier, jsOr_zero]
  split_ifs with h1 h2 h3 <;> simp_all

/-- C5 witness: the concrete hotspot building gets tier 4. -/
theorem getBuildingTier_spec_witness : getBuildingTier exHot = 4 :=
  (getBuildingTier_spec exHot).2.2.2.2.1 rfl

/-- C4: on every data-model building (whose metrics carry no `methods` key),
`detectPattern` returns at most one pattern, namely the first matching rule
in the priority order god_class, data_class, lazy_class, brain_class, blob;
a building with `loc = 900` and `complexity = 30` classifies as god_class. -/
theorem detectPattern_spec (b : Building) (hm : b.metrics.methods = none) :
    (detectPattern b = some .god_class ↔
      ((b.metrics.loc > 400 ∧ b.metrics.complexity > 20) ∨ b.is_hotspot = true)) ∧
    (detectPattern b = some .data_class ↔
      (¬((b.metrics.loc > 400 ∧ b.metrics.complexity > 20) ∨ b.is_hotspot = true) ∧
        (b.metrics.dependencies_in > 10 ∧ b.metrics.complexity < 3))) ∧
    (detectPattern b = some .lazy_class ↔
      (¬((b.metrics.loc > 400 ∧ b.metrics.complexity > 20) ∨ b.is_hotspot = true) ∧
        ¬(b.metrics.dependencies_in > 10 ∧ b.metrics.complexity < 3) ∧
        (b.metrics.loc < 50 ∧ b.metrics.complexity < 3 ∧ ¬b.is_hotspot = true))) ∧
    (detectPattern b = some .brain_class ↔
      (¬((b.metrics.loc > 400 ∧ b.metrics.complexity > 20) ∨ b.is_hotspot = true) ∧
        ¬(b.metrics.dependencies_in > 10 ∧ b.metrics.complexity < 3) ∧
        ¬(b.metrics.loc < 50 ∧ b.metrics.complexity < 3 ∧ ¬b.is_hotspot = true) ∧
        b.metrics.complexity > 25)) ∧
    (detectPattern b = some .blob ↔
      (¬((b.metrics.loc > 400 ∧ b.metrics.complexity > 20) ∨ b.is_hotspot = true) ∧
        ¬(b.metrics.dependencies_in > 10 ∧ b.metrics.complexity < 3) ∧
        ¬(b.metrics.loc < 50 ∧ b.metrics.complexity < 3 ∧ ¬b.is_hotspot = true) ∧
        ¬b.metrics.complexity > 25 ∧ b.metrics.loc > 800)) ∧
    detectPattern exGod = some .god_class := by
  have hjs : ∀ d, jsOrOpt b.metrics.methods d = d := by
    intro d; rw [hm]; rfl
  refine ⟨?_, ?_, ?_, ?_, ?_, by decide⟩ <;>
    (simp only [detectPattern, hjs, jsOr_zero]; split_ifs <;> simp_all)

/-- C4 witness: the example building satisfies the god_class rule. -/
theorem detectPattern_spec_witness : detectPattern exGod = some .god_class :=
  ((detectPattern_spec exGod rfl).1).mpr (by norm_num [exGod])

/-- C6: the health score applies the single highest-tier deduction per rule
(complexity, churn, decay, dependencies_in, hotspot), additively and
independently of evaluation order, and the result is clamped to `[0, 100]`;
the example building with `complexity = 30`, `churn = 20`,
`decay_level = 0.9`, `dependencies_in = 25`, `is_hotspot = true` scores 0. -/
theorem calculateHealthScore_spec (m : Metrics) (decay : ℚ) (hot : Bool) :
    calculateHealthScore m decay hot =
      max 0 (100
        - (if m.complexity > 25 then 30 else if m.complexity > 15 then 20
            else if m.complexity > 10 then 10 else 0)
        - (if m.churn > 15 then 20 else if m.churn > 8 then 10 else 0)
        - (if decay > (0.8 : ℚ) then 15 else if decay > (0.5 : ℚ) then 8 else 0)
        - (if m.dependencies_in > 20 then 15
            else if m.dependencies_in > 10 then 8 else 0)
        - (if hot then 20 else 0)) ∧
    0 ≤ calculateHealthScore m decay hot ∧
    calculateHealthScore m decay hot ≤ 100 ∧
    calculateHealthScore exSickMetrics (0.9 : ℚ) true = 0 := by
  refine ⟨calculateHealthScore_eq m decay hot, ?_, ?_, ?_⟩
  · dsimp only [calculateHealthScore]
    exact le_max_left 0 _
  · rw [calculateHealthScore_eq]
    have h1 : (0:ℤ) ≤ (if m.complexity > 25 then 30 else if m.complexity > 15 then 20
        else if m.complexity > 10 then 10 else 0) := by split_ifs <;> norm_num
    have h2 : (0:ℤ) ≤ (if m.churn > 15 then 20 else if m.churn > 8 then 10 else 0) := by
      split_ifs <;> norm_num
    have h3 : (0:ℤ) ≤ (if decay > (0.8 : ℚ) then 15
        else if decay > (0.5 : ℚ) then 8 else 0) := by split_ifs <;> norm_num
    have h4 : (0:ℤ) ≤ (if m.dependencies_in > 20 then 15
        else if m.dependencies_in > 10 then 8 else 0) := by split_ifs <;> norm_num
    have h5 : (0:ℤ) ≤ (if hot then 20 else 0) := by split_ifs <;> norm_num
    exact max_le (by norm_num) (by linarith)
  · rw [calculateHealthScore_eq]
    norm_num [exSickMetrics]

/-- C6 witness: the example building scores exactly 0. -/
theorem calculateHealthScore_spec_witness :
    calculateHealthScore exSickMetrics (0.9 : ℚ) true = 0 :=
  (calculateHealthScore_spec exSickMetrics (0.9 : ℚ) true).2.2.2

/-- C2: the LOD controller is a three-state machine with initial state
`high`; the state is pinned to `high` when the entity count is at most 100,
and otherwise determined by camera distance: `d > 250` gives low,
`150 < d ≤ 250` gives medium, `d ≤ 150` gives high; entity count 50 at
distance 400 yields `high` and entity count 500 at distance 300 yields
`low`. -/
theorem lodState_spec :
    lodInitial = LODState.high ∧
    (∀ (n : ℕ) (d : ℚ), n ≤ 100 → lodState n d = LODState.high) ∧
    (∀ (n : ℕ) (d : ℚ), 100 < n → 250 < d → lodState n d = LODState.low) ∧
    (∀ (n : ℕ) (d : ℚ), 100 < n → 150 < d → d ≤ 250 → lodState n d = LODState.medium) ∧
    (∀ (n : ℕ) (d : ℚ), 100 < n → d ≤ 150 → lodState n d = LODState.high) ∧
    lodState 50 400 = LODState.high ∧
    lodState 500 300 = LODState.low := by
  refine ⟨rfl, ?_, ?_, ?_, ?_, ?_, ?_⟩
  · intro n d h
    rw [lodState, if_pos h]
  · intro n d h1 h2
    rw [lodState, if_neg (by omega), if_pos h2]
  · intro n d h1 h2 h3
    rw [lodState, if_neg (by omega), if_neg (by exact not_lt.mpr h3), if_pos h2]
  · intro n d h1 h2
    rw [lodState, if_neg (by omega), if_neg (by exact not_lt.mpr (by linarith)),
      if_neg (by exact not_lt.mpr h2)]
  · rw [lodState, if_pos (by omega)]
  · rw [lodState, if_neg (by omega), if_pos (by norm_num)]

/-- C2 witness: concrete states at each activation and distance band. -/
theorem lodState_spec_witness :
    lodState 50 400 = LODState.high ∧ lodState 101 300 = LODState.low ∧
    lodState 101 200 = LODState.medium ∧ lodState 101 100 = LODState.high :=
  ⟨lodState_spec.2.1 50 400 (by norm_num),
   lodState_spec.2.2.1 101 300 (by norm_num) (by norm_num),
   lodState_spec.2.2.2.1 101 200 (by norm_num) (by norm_num) (by norm_num),
   lodState_spec.2.2.2.2.1 101 100 (by norm_num) (by norm_num)⟩

/-- C10: with a selection, the roads chosen for rendering are exactly the
roads incident to the selected id, independently of the road toggle; with
no selection the first 40 roads are chosen when the toggle is on and none
when it is off. -/
theorem roadsToRender_spec (roads : List Road) (s : Building) (sr : Bool) :
    (∀ r, r ∈ roadsToRender roads (some s) sr ↔
      r ∈ roads ∧ incidentB s.id r = true) ∧
    roadsToRender roads none true = roads.take 40 ∧
    (roadsToRender roads none true).length ≤ 40 ∧
    roadsToRender roads none false = [] := by
  refine ⟨?_, rfl, ?_, rfl⟩
  · intro r
    simp [roadsToRender, List.mem_filter]
  · simp only [roadsToRender]
    exact List.length_take_le 40 roads

/-- C10 witness: a concrete incident road is selected for rendering. -/
theorem roadsToRender_spec_witness :
    ghostRoad ∈ roadsToRender [ghostRoad] (some bldA) false :=
  ((roadsToRender_spec [ghostRoad] bldA false).1 ghostRoad).mpr
    ⟨by simp, by decide⟩

/-- C7 counterexample: with building `A` selected and a road from `A` to the
unknown id `ghost`, the id `ghost` does not resolve to any building, yet it
does appear in the connected set — the claim that an unresolvable endpoint
id never appears in the connected set is false on this input. -/
theorem connectedIds_ghost_counterexample :
    resolvesId [bldA] (some "ghost") = false ∧
    some "ghost" ∈ connectedIds [ghostRoad] (some bldA) := by
  constructor
  · decide
  · simp [connectedIds, ghostRoad, bldA, roadSource, roadTarget, jsOrStr]

/-- C7 amended: a road with an unresolvable endpoint is silently skipped
when rendering roads (it never appears among the rendered roads, with no
error raised since all functions are total); the connected set is computed
without the resolvability check, so it may contain the unresolvable id,
but that id matches no building in the snapshot, so it never marks a
rendered building as connected. -/
theorem roadResolution_amended (bs : List Building) (roads : List Road)
    (sel : Option Building) (sr : Bool) :
    (∀ r ∈ roads,
      (resolvesId bs (roadSource r) = false ∨ resolvesId bs (roadTarget r) = false) →
      r ∉ renderedRoads bs roads sel sr) ∧
    (∀ b ∈ bs, ∀ oid ∈ connectedIds roads sel,
      resolvesId bs oid = false → oid ≠ some b.id) := by
  constructor
  · intro r _ hbad hmem
    have hpred := (List.mem_filter.mp hmem).2
    rw [Bool.and_eq_true] at hpred
    rcases hbad with hbad | hbad
    · rw [hpred.1] at hbad; exact Bool.noConfusion hbad
    · rw [hpred.2] at hbad; exact Bool.noConfusion hbad
  · intro b hb oid _ hres heq
    rw [heq] at hres
    have : resolvesId bs (some b.id) = true := by
      simp only [resolvesId, List.any_eq_true]
      exact ⟨b, hb, by simp⟩
    rw [this] at hres
    exact Bool.noConfusion hres

/-- C7 amended witness: the ghost road is skipped by rendering in the
concrete scenario. -/
theorem roadResolution_amended_witness :
    ghostRoad ∉ renderedRoads [bldA] [ghostRoad] (some bldA) true :=
  (roadResolution_amended [bldA] [ghostRoad] (some bldA) true).1 ghostRoad
    (by simp) (Or.inr (by decide))

theorem foldl_min_sub (xs : List ℚ) (a c : ℚ) :
    (xs.map (fun x => x - c)).foldl min (a - c) = xs.foldl min a - c := by
  induction xs generalizing a with
  | nil => rfl
  | cons y ys ih =>
    simp only [List.map_cons, List.foldl_cons]
    rw [min_sub_sub_right]
    exact ih _

theorem foldl_max_sub (xs : List ℚ) (a c : ℚ) :
    (xs.map (fun x => x - c)).foldl max (a - c) = xs.foldl max a - c := by
  induction xs generalizing a with
  | nil => rfl
  | cons y ys ih =>
    simp only [List.map_cons, List.foldl_cons]
    rw [max_sub_sub_right]
    exact ih _

theorem listMinQ_map_sub (xs : List ℚ) (c : ℚ) (h : xs ≠ []) :
    listMinQ (xs.map (fun x => x - c)) = listMinQ xs - c := by
  cases xs with
  | nil => exact absurd rfl h
  | cons y ys => simpa [listMinQ] using foldl_min_sub ys y c

theorem listMaxQ_map_sub (xs : List ℚ) (c : ℚ) (h : xs ≠ []) :
    listMaxQ (xs.map (fun x => x - c)) = listMaxQ xs - c := by
  cases xs with
  | nil => exact absurd rfl h
  | cons y ys => simpa [listMaxQ] using foldl_max_sub ys y c

/-- C3 counterexample: after centering the three-building city with
x-coordinates 0, 0, 10, the mean x-coordinate is -5/3, not within any
floating-point tolerance of 0 — the normalizer subtracts the bounding-box
midpoint, not the centroid. -/
theorem centering_counterexample :
    ((centeredBuildings skewedCity).map (fun b => b.position.x)).sum /
        ((centeredBuildings skewedCity).length : ℚ) = -5/3 ∧
    (-5/3 : ℚ) ≠ 0 := by
  constructor
  · norm_num [centeredBuildings, skewedCity, centerBuilding, bboxCenterX,
      listMinQ, listMaxQ, cbA, cbB, cbC, min_def, max_def]
  · norm_num

/-- C3 amended: for every nonempty building list, every building position
and district center is translated by the negated bounding-box midpoint of
the building positions, so the midpoint of the minimum and maximum centered
x- and z-coordinates is exactly 0 (the bounding box, not the centroid, is
centered at the origin). -/
theorem centering_amended (bs : List Building) (h : bs ≠ []) :
    (∀ b ∈ bs, centerBuilding (bboxCenterX bs) (bboxCenterZ bs) b ∈ centeredBuildings bs) ∧
    listMinQ ((centeredBuildings bs).map (fun b => b.position.x)) +
      listMaxQ ((centeredBuildings bs).map (fun b => b.position.x)) = 0 ∧
    listMinQ ((centeredBuildings bs).map (fun b => b.position.z)) +
      listMaxQ ((centeredBuildings bs).map (fun b => b.position.z)) = 0 ∧
    (∀ (ds : List District), ∀ d ∈ ds, ∀ c, d.center = some c →
      (⟨d.id, some (c.1 - bboxCenterX bs, c.2 - bboxCenterZ bs)⟩ : District) ∈
        centeredDistricts bs ds) := by
  have hb : bs.isEmpty = false := by
    cases bs with
    | nil => exact absurd rfl h
    | cons y ys => rfl
  have hmapx : (centeredBuildings bs).map (fun b => b.position.x) =
      (bs.map (fun b => b.position.x)).map (fun x => x - bboxCenterX bs) := by
    simp [centeredBuildings, hb, List.map_map]
    intro a _
    rfl
  have hmapz : (centeredBuildings bs).map (fun b => b.position.z) =
      (bs.map (fun b => b.position.z)).map (fun x => x - bboxCenterZ bs) := by
    simp [centeredBuildings, hb, List.map_map]
    intro a _
    rfl
  have hnex : bs.map (fun b => b.position.x) ≠ [] := by
    intro hx; exact h (List.map_eq_nil_iff.mp hx)
  have hnez : bs.map (fun b => b.position.z) ≠ [] := by
    intro hx; exact h (List.map_eq_nil_iff.mp hx)
  refine ⟨?_, ?_, ?_, ?_⟩
  · intro b hbmem
    rw [centeredBuildings, if_neg (by rw [hb]; exact Bool.false_ne_true)]
    exact List.mem_map_of_mem _ hbmem
  · rw [hmapx, listMinQ_map_sub _ _ hnex, listMaxQ_map_sub _ _ hnex, bboxCenterX]
    ring
  · rw [hmapz, listMinQ_map_sub _ _ hnez, listMaxQ_map_sub _ _ hnez, bboxCenterZ]
    ring
  · intro ds d hd c hc
    rw [centeredDistricts, if_neg (by rw [hb]; exact Bool.false_ne_true)]
    have : centerDistrict (bboxCenterX bs) (bboxCenterZ bs) d =
        ⟨d.id, some (c.1 - bboxCenterX bs, c.2 - bboxCenterZ bs)⟩ := by
      rw [centerDistrict, hc]
    exact this ▸ List.mem_map_of_mem _ hd

/-- C3 amended witness: the skewed city has its bounding box centered. -/
theorem centering_amended_witness :
    listMinQ ((centeredBuildings skewedCity).map (fun b => b.position.x)) +
      listMaxQ ((centeredBuildings skewedCity).map (fun b => b.position.x)) = 0 :=
  (centering_amended skewedCity (by simp [skewedCity])).2.1

theorem dist2_nonneg (dot : MapDot) (cx cy : ℚ) : 0 ≤ dist2 dot cx cy :=
  add_nonneg (sq_nonneg _) (sq_nonneg _)

/-- Invariant of the click loop once a candidate is held: the result is
still a candidate within the radius, no farther than the held one, drawn
from the held dot or the rest of the list, and no dot of the rest is
strictly closer. -/
theorem foldl_click_some (cx cy : ℚ) :
    ∀ (dots : List MapDot) (best : MapDot) (m : ℚ),
    dist2 best cx cy = m → m < 100 →
    ∃ b2 m2, dots.foldl (handleClickFold cx cy) (some (best, m)) = some (b2, m2) ∧
      dist2 b2 cx cy = m2 ∧ m2 < 100 ∧ m2 ≤ m ∧ (b2 = best ∨ b2 ∈ dots) ∧
      ∀ dot ∈ dots, m2 ≤ dist2 dot cx cy := by
  intro dots
  induction dots with
  | nil =>
    intro best m hd hm
    exact ⟨best, m, rfl, hd, hm, le_refl m, Or.inl rfl, by simp⟩
  | cons d ds ih =>
    intro best m hd hm
    simp only [List.foldl_cons, handleClickFold]
    by_cases hcond : dist2 d cx cy < m ∧ dist2 d cx cy < 100
    · rw [if_pos hcond]
      obtain ⟨b2, m2, heq, hb2, hm2, hle, hmem, hall⟩ :=
        ih d (dist2 d cx cy) rfl hcond.2
      refine ⟨b2, m2, heq, hb2, hm2, le_trans hle (le_of_lt hcond.1), ?_, ?_⟩
      · rcases hmem with h | h
        · exact Or.inr (h ▸ List.mem_cons_self d ds)
        · exact Or.inr (List.mem_cons_of_mem d h)
      · intro dot hdot
        rcases List.mem_cons.mp hdot with h | h
        · rw [h]; exact hle
        · exact hall dot h
    · rw [if_neg hcond]
      obtain ⟨b2, m2, heq, hb2, hm2, hle, hmem, hall⟩ := ih best m hd hm
      refine ⟨b2, m2, heq, hb2, hm2, hle, ?_, ?_⟩
      · rcases hmem with h | h
        · exact Or.inl h
        · exact Or.inr (List.mem_cons_of_mem d h)
      · intro dot hdot
        rcases List.mem_cons.mp hdot with h | h
        · subst h
          by_cases h1 : dist2 dot cx cy < m
          · have h2 : ¬ dist2 dot cx cy < 100 := fun hx => hcond ⟨h1, hx⟩
            exact le_trans (le_of_lt hm2) (not_lt.mp h2)
          · exact le_trans hle (not_lt.mp h1)
        · exact hall dot h

/-- The click loop yields nothing exactly when no dot lies within the
radius. -/
theorem foldl_click_none (cx cy : ℚ) :
    ∀ dots : List MapDot,
    (dots.foldl (handleClickFold cx cy) none = none ↔
      ∀ dot ∈ dots, 100 ≤ dist2 dot cx cy) := by
  intro dots
  induction dots with
  | nil => simp
  | cons d ds ih =>
    simp only [List.foldl_cons, handleClickFold]
    by_cases hd : dist2 d cx cy < 100
    · rw [if_pos hd]
      obtain ⟨b2, m2, heq, -⟩ := foldl_click_some cx cy ds d (dist2 d cx cy) rfl hd
      rw [heq]
      refine iff_of_false (by simp) ?_
      intro hall
      exact absurd (hall d (List.mem_cons_self d ds)) (not_le.mpr hd)
    · rw [if_neg hd, ih]
      constructor
      · intro h dot hdot
        rcases List.mem_cons.mp hdot with hh | hh
        · rw [hh]; exact not_lt.mp hd
        · exact h dot hh
      · intro h dot hdot
        exact h dot (List.mem_cons_of_mem d hdot)

/-- When the click loop starting empty yields a candidate, that candidate
is a dot of the list, within the radius, at minimum distance. -/
theorem foldl_click_start (cx cy : ℚ) :
    ∀ (dots : List MapDot) (b2 : MapDot) (m2 : ℚ),
    dots.foldl (handleClickFold cx cy) none = some (b2, m2) →
    dist2 b2 cx cy = m2 ∧ m2 < 100 ∧ b2 ∈ dots ∧
      ∀ dot ∈ dots, m2 ≤ dist2 dot cx cy := by
  intro dots
  induction dots with
  | nil => intro b2 m2 h; exact absurd h (by simp)
  | cons d ds ih =>
    intro b2 m2 h
    simp only [List.foldl_cons, handleClickFold] at h
    by_cases hd : dist2 d cx cy < 100
    · rw [if_pos hd] at h
      obtain ⟨b3, m3, heq, hb3, hm3, hle3, hmem3, hall3⟩ :=
        foldl_click_some cx cy ds d (dist2 d cx cy) rfl hd
      rw [heq] at h
      have hpair := Option.some.inj h
      have hb : b3 = b2 := congrArg Prod.fst hpair
      have hm : m3 = m2 := congrArg Prod.snd hpair
      subst hb; subst hm
      refine ⟨hb3, hm3, ?_, ?_⟩
      · rcases hmem3 with hh | hh
        · rw [hh]; exact List.mem_cons_self d ds
        · exact List.mem_cons_of_mem d hh
      · intro dot hdot
        rcases List.mem_cons.mp hdot with hh | hh
        · rw [hh]; exact hle3
        · exact hall3 dot hh
    · rw [if_neg hd] at h
      obtain ⟨hb3, hm3, hmem, hall⟩ := ih b2 m2 h
      refine ⟨hb3, hm3, List.mem_cons_of_mem d hmem, ?_⟩
      intro dot hdot
      rcases List.mem_cons.mp hdot with hh | hh
      · rw [hh]; exact le_trans (le_of_lt hm3) (not_lt.mp hd)
      · exact hall dot hh

theorem handleClick_none_iff (dots : List MapDot) (cx cy : ℚ) :
    handleClick dots cx cy = none ↔ ∀ dot ∈ dots, 100 ≤ dist2 dot cx cy := by
  rw [handleClick, Option.map_eq_none']
  exact foldl_click_none cx cy dots

theorem handleClick_some_spec (dots : List MapDot) (cx cy : ℚ) (bld : Building)
    (h : handleClick dots cx cy = some bld) :
    ∃ dot ∈ dots, dot.building = bld ∧ dist2 dot cx cy < 100 ∧
      ∀ d ∈ dots, dist2 dot cx cy ≤ dist2 d cx cy := by
  rw [handleClick, Option.map_eq_some'] at h
  obtain ⟨⟨b2, m2⟩, heq, hfb⟩ := h
  obtain ⟨hd2, hm, hmem, hall⟩ := foldl_click_start cx cy dots b2 m2 heq
  refine ⟨b2, hmem, hfb, ?_, ?_⟩
  · rw [hd2]; exact hm
  · intro d hd
    rw [hd2]; exact hall d hd

/-- C9: minimap hit testing returns nothing exactly when no projected dot
lies within the pixel hit radius of the click; when it returns a building,
that building has a projected dot within the radius at minimum Euclidean
distance to the click among all dots; and a click exactly at the projected
point of a building (no other dot sharing that point) returns that
building. -/
theorem minimapHit_spec (bs : List Building) (cx cy : ℚ) :
    (handleClick (buildingDots bs) cx cy = none ↔
      ∀ dot ∈ buildingDots bs, 100 ≤ dist2 dot cx cy) ∧
    (∀ bld, handleClick (buildingDots bs) cx cy = some bld →
      ∃ dot ∈ buildingDots bs, dot.building = bld ∧ dist2 dot cx cy < 100 ∧
        ∀ d ∈ buildingDots bs, dist2 dot cx cy ≤ dist2 d cx cy) ∧
    (∀ dot ∈ buildingDots bs, dot.x = cx → dot.y = cy →
      (∀ d ∈ buildingDots bs, d ≠ dot → 0 < dist2 d cx cy) →
      handleClick (buildingDots bs) cx cy = some dot.building) := by
  refine ⟨handleClick_none_iff (buildingDots bs) cx cy,
    fun bld h => handleClick_some_spec (buildingDots bs) cx cy bld h, ?_⟩
  intro dot hdot hx hy huniq
  have hzero : dist2 dot cx cy = 0 := by rw [dist2, hx, hy]; ring
  have hne : handleClick (buildingDots bs) cx cy ≠ none := by
    intro hnone
    rw [handleClick_none_iff] at hnone
    have hge := hnone dot hdot
    rw [hzero] at hge
    norm_num at hge
  obtain ⟨bld, hbld⟩ := Option.ne_none_iff_exists'.mp hne
  obtain ⟨dot2, hdot2, hbuild, _, hmin⟩ :=
    handleClick_some_spec (buildingDots bs) cx cy bld hbld
  have hdd : dot2 = dot := by
    by_contra hneq
    have h1 := huniq dot2 hdot2 hneq
    have h2 := hmin dot hdot
    rw [hzero] at h2
    linarith
  rw [hbld, ← hbuild, hdd]

/-- The minimap of the single-building city projects its one building to
the dot at `(75, 75)`. -/
theorem buildingDots_bldA : buildingDots [bldA] = [dotA] := by
  simp only [buildingDots, mapMinX, mapMinZ, mapScale, mapWidth, mapHeight,
    listMinQ, listMaxQ, bldA, dotA, List.map_cons, List.map_nil,
    List.foldl_nil, max_self]
  norm_num

/-- C9 witness: a click exactly at the projected point of the only building
returns that building. -/
theorem minimapHit_spec_witness : handleClick (buildingDots [bldA]) 75 75 = some bldA := by
  have h := (minimapHit_spec [bldA] 75 75).2.2 dotA
    (by rw [buildingDots_bldA]; exact List.mem_singleton.mpr rfl)
    rfl rfl
    (by
      rw [buildingDots_bldA]
      intro d hd hne
      exact absurd (List.mem_singleton.mp hd) hne)
  exact h

theorem langKey_python : langKey "python" = "python" := rfl

theorem vscode_python : vscodeLanguageColor "python" = (53, 114, 165) := rfl

theorem city_python : cityLanguageColor "python" = (74, 124, 155) := rfl

/-- The red-channel move of the python base color for decays above one
half: the moss red 90/255 exceeds the base red 53/255 by 37/255, scaled by
the lerp factor `decay * 0.3`. -/
theorem pythonRed_above (d : ℚ) (h : 1/2 < d) :
    (buildingMaterialColor pythonBase d).r -
      (buildingMaterialColor pythonBase (1/2)).r = 37/255 * (d * (3/10)) := by
  have h05 : (0.5 : ℚ) = 1/2 := by norm_num
  rw [buildingMaterialColor, if_pos (by rw [gt_iff_lt, h05]; exact h),
    buildingMaterialColor, if_neg (by rw [gt_iff_lt, h05]; exact lt_irrefl _)]
  simp only [lerpColor, pythonBase, mossColor, colorToRGB, vscode_python]
  norm_num

/-- C1 counterexample: on a snapshot of 201 python buildings the instanced
path gets its per-instance color from the VSCode language table while the
discrete path derives its base color from the muted table of
`Building.jsx`, so the first entity already has different colors on the two
paths — the claimed per-entity color match between the batched and discrete
paths is false. -/
theorem instancedColor_counterexample :
    200 < bigSnapshot.length ∧
    ¬ ((instancedBuildings bigSnapshot).map (fun i => i.color) =
      (discreteBuildings bigSnapshot).map (fun e => e.color)) := by
  refine ⟨by simp [bigSnapshot], ?_⟩
  intro heq
  rw [instancedBuildings, discreteBuildings, bigSnapshot, List.map_map,
    List.map_map, List.map_map, List.map_map, List.map_inj_left] at heq
  have h0 := heq 0 (by simp)
  simp only [Function.comp, pyBuilding, discreteBaseColor, langKey_python,
    vscode_python, city_python, colorToRGB, Color3.mk.injEq] at h0
  norm_num at h0

/-- C1 amended: past the 200-entity threshold (switch modelled from the
spec) the engine uses the instanced path, which renders one instance per
building — the same entity set at the same ground positions as the
discrete path, each instance carrying the transform
`(x, height/2, z)` with scale `(width, height, depth)` — with per-instance
color derived from the language via the instanced path's own color table,
which need not match the discrete path's base color. -/
theorem renderMode_amended (bs : List Building) (h : 200 < bs.length) :
    renderMode bs.length = RenderMode.instanced ∧
    (instancedBuildings bs).length = bs.length ∧
    (instancedBuildings bs).map (fun i => (i.posX, i.posZ)) =
      (discreteBuildings bs).map (fun e => (e.posX, e.posZ)) ∧
    (instancedBuildings bs).map (fun i => (i.scaleX, i.scaleY, i.scaleZ)) =
      bs.map (fun b => (b.dimensions.width, b.dimensions.height, b.dimensions.depth)) ∧
    (instancedBuildings bs).map (fun i => i.color) =
      bs.map (fun b => colorToRGB (vscodeLanguageColor (langKey b.language))) := by
  refine ⟨by rw [renderMode, if_pos h], by simp [instancedBuildings], ?_, ?_, ?_⟩
  · simp [instancedBuildings, discreteBuildings, List.map_map]
  · simp [instancedBuildings, List.map_map]
  · simp [instancedBuildings, List.map_map]

/-- C1 amended witness: the 201-building snapshot takes the instanced
path. -/
theorem renderMode_amended_witness :
    renderMode bigSnapshot.length = RenderMode.instanced :=
  (renderMode_amended bigSnapshot (by simp [bigSnapshot])).1

/-- C8 counterexample: for the python base color the decay blend is not
continuous at `decay = 0.5`: every decay just above one half moves the red
channel by at least `(90 - 53)/255 * 0.15 > 1/100`, so the one-sided limits
at the boundary do not agree and the claimed no-jump property is false. -/
theorem decayBlend_counterexample :
    ¬ (∀ ε : ℚ, 0 < ε → ∃ δ : ℚ, 0 < δ ∧ ∀ d : ℚ, 1/2 < d → d < 1/2 + δ →
      |(buildingMaterialColor pythonBase d).r -
        (buildingMaterialColor pythonBase (1/2)).r| < ε) := by
  intro h
  obtain ⟨δ, hδ, hall⟩ := h (1/100) (by norm_num)
  have hmin : 0 < min δ 1 := lt_min hδ one_pos
  have hminle : min δ 1 ≤ δ := min_le_left δ 1
  have h1 : (1:ℚ)/2 < 1/2 + min δ 1 / 4 := by linarith
  have h2 : (1:ℚ)/2 + min δ 1 / 4 < 1/2 + δ := by linarith
  have hval := hall (1/2 + min δ 1 / 4) h1 h2
  rw [pythonRed_above _ h1] at hval
  have hpos : 0 < (37/255 : ℚ) * ((1/2 + min δ 1 / 4) * (3/10)) := by
    apply mul_pos (by norm_num)
    apply mul_pos (by linarith) (by norm_num)
  rw [abs_of_pos hpos] at hval
  linarith

/-- C8 amended: for a fixed language base color and `decay > 0.5` the
rendered color is the base color lerped toward the moss tone with factor
`decay * 0.3` — each channel moves by `(moss - base) * decay * 0.3`,
proportional to decay — while for `decay ≤ 0.5` the base color is
unchanged; the blend therefore jumps by `0.15 * (moss - base)` at the
boundary and is not continuous there unless the base channel equals the
moss channel. -/
theorem decayBlend_amended (base : Color3) (d : ℚ) (h : (0.5 : ℚ) < d) :
    buildingMaterialColor base d = lerpColor base mossColor (d * (0.3 : ℚ)) ∧
    (buildingMaterialColor base d).r - base.r =
      (mossColor.r - base.r) * (d * (0.3 : ℚ)) ∧
    (buildingMaterialColor base d).g - base.g =
      (mossColor.g - base.g) * (d * (0.3 : ℚ)) ∧
    (buildingMaterialColor base d).b - base.b =
      (mossColor.b - base.b) * (d * (0.3 : ℚ)) ∧
    buildingMaterialColor base (0.5 : ℚ) = base := by
  refine ⟨by rw [buildingMaterialColor, if_pos h],
    by rw [buildingMaterialColor, if_pos h]; simp [lerpColor],
    by rw [buildingMaterialColor, if_pos h]; simp [lerpColor],
    by rw [buildingMaterialColor, if_pos h]; simp [lerpColor],
    by rw [buildingMaterialColor, if_neg (lt_irrefl _)]⟩

/-- C8 amended witness: at decay `3/4` the red channel of the python base
has moved toward moss by the proportional amount. -/
theorem decayBlend_amended_witness :
    (buildingMaterialColor pythonBase (3/4)).r - pythonBase.r =
      (mossColor.r - pythonBase.r) * ((3/4) * (0.3 : ℚ)) :=
  (decayBlend_amended pythonBase (3/4) (by norm_num)).2.1

end CodebaseCity
